import Mathlib

/-!
# Verification of the duplicity progress module

Shallow embedding of src/duplicity/progress.py.

Modelling conventions:
* Python ints are modelled as Lean integers (byte counts, step counts,
  whole-second values); nsteps is a natural number since it starts at 0 and
  is only ever incremented.
* Python floats are idealized as exact rationals; math.sqrt is modelled by
  Rat.sqrt (exact on perfect squares).  None of the claims settled here is
  sensitive to the square-root approximation: the invariant claims are proved
  for the clamped combination regardless of the sigma values, and the
  concrete evaluations only exercise square roots of perfect squares.
* datetime timestamps are rationals counting seconds (with fractional part
  for microseconds); a timedelta is the rational difference.  The Python
  timedelta normalization gives d.seconds = floor(d) mod 86400, modelled by
  tdSeconds, and d.total_seconds() is the rational itself.
* Exceptions are modelled explicitly: every operation that can raise returns,
  besides the post state, an Option PyErr.  In Python an exception propagates
  after the in-place field mutations already performed, so the post state
  records the mutations made before the raise point.
* progress.py line 181 reads self.elapsed, an attribute that is never
  assigned anywhere in the class (only the local variable elapsed and the
  field self.elapsed_sum exist), so execution of the statistics section
  always raises AttributeError at line 181; lines 182-196 (rate queue,
  speed fold, non-stalled report) are unreachable and therefore have no
  image in the step function.
* progress.py line 152 divides by diffdir.stats.RawDeltaSize without a zero
  guard, raising ZeroDivisionError when it is zero.
-/

namespace Duplicity

/-- A statistics record: the fields of diffdir stats objects that
progress.py reads (NewFileSize, ChangedFileSize, RawDeltaSize). -/
structure StatsSet where
  NewFileSize : ℤ
  ChangedFileSize : ℤ
  RawDeltaSize : ℤ
  deriving DecidableEq, Repr

/-- The Python exceptions that the modelled code can raise. -/
inductive PyErr where
  | attributeError : PyErr
  | zeroDivisionError : PyErr
  | typeError : PyErr
  deriving DecidableEq, Repr

/-- The tuple passed to log.TransferProgress. -/
structure Report where
  percent : ℚ
  eta : ℤ
  totalBytes : ℤ
  elapsedSeconds : ℤ
  speed : ℚ
  stalled : Bool
  deriving DecidableEq, Repr

/-- The mutable state of ProgressTracker, fields in __init__ order
(progress.py lines 72-89). -/
structure ProgressTracker where
  total_stats : Option StatsSet
  nsteps : ℕ
  start_time : Option ℚ
  change_mean_ratio : ℚ
  change_r_estimation : ℚ
  compress_mean_ratio : ℚ
  compress_r_estimation : ℚ
  progress_estimation : ℚ
  time_estimation : ℤ
  total_bytecount : ℤ
  last_total_bytecount : ℤ
  last_bytecount : ℤ
  stall_last_time : Option ℚ
  last_time : Option ℚ
  elapsed_sum : ℚ
  speed : ℚ
  transfers : List ℚ
  deriving DecidableEq, Repr

/-- ProgressTracker.__init__ (lines 72-89). -/
def ProgressTracker.init : ProgressTracker where
  total_stats := none
  nsteps := 0
  start_time := none
  change_mean_ratio := 0
  change_r_estimation := 0
  compress_mean_ratio := 0
  compress_r_estimation := 0
  progress_estimation := 0
  time_estimation := 0
  total_bytecount := 0
  last_total_bytecount := 0
  last_bytecount := 0
  stall_last_time := none
  last_time := none
  elapsed_sum := 0
  speed := 0
  transfers := []

/-- ProgressTracker.has_collected_evidence (lines 91-96). -/
def ProgressTracker.has_collected_evidence (st : ProgressTracker) : Bool :=
  st.total_stats.isSome

/-- Python's long()/int() applied to a float: truncation toward zero. -/
def pyLong (x : ℚ) : ℤ := if 0 ≤ x then ⌊x⌋ else ⌈x⌉

/-- The seconds component of a Python timedelta of d seconds total:
normalization stores 0 ≤ seconds < 86400, so seconds = floor(d) mod 86400
(Int.emod is nonnegative for a positive modulus, matching Python). -/
def tdSeconds (d : ℚ) : ℤ := ⌊d⌋ % 86400

/-- ProgressTracker.annotate_written_bytes (lines 199-210); now is the value
of datetime.now() during the call. -/
def annotate_written_bytes (bytecount : ℤ) (now : ℚ) (st : ProgressTracker) :
    ProgressTracker :=
  let changing : ℤ := max (bytecount - st.last_bytecount) 0
  { st with
    total_bytecount := st.total_bytecount + changing
    last_bytecount := bytecount
    stall_last_time := if 0 < changing then some now else st.stall_last_time }

/-- ProgressTracker.set_evidence (lines 212-217). -/
def set_evidence (stats : StatsSet) (st : ProgressTracker) : ProgressTracker :=
  { st with total_stats := some stats }

/-- ProgressTracker.log_upload_progress (lines 98-196).

Parameters: gProgress models globals.progress, gRate models
globals.progress_rate, dstats models diffdir.stats at the time of the call,
now models datetime.now().  Returns the post state, the report passed to
log.TransferProgress (if any), and the exception raised (if any).  The post
state carries the field mutations performed before a raise point, matching
Python's in-place mutation followed by exception propagation. -/
def log_upload_progress (gProgress : Bool) (gRate : ℤ) (dstats : StatsSet)
    (now : ℚ) (st : ProgressTracker) :
    ProgressTracker × Option Report × Option PyErr :=
  -- line 102: if not globals.progress or not self.has_collected_evidence(): return
  if gProgress = false ∨ st.has_collected_evidence = false then (st, none, none)
  else
    let ev : StatsSet := st.total_stats.getD ⟨0, 0, 0⟩
    -- lines 105-112
    let start0 : ℚ := st.start_time.getD now
    let elapsed : ℚ :=
      match st.last_time with
      | some t => now - t
      | none => 0
    -- lines 115-116
    let stall0 : ℚ := st.stall_last_time.getD now
    let st1 : ProgressTracker :=
      { st with
        start_time := some start0
        last_time := some now
        stall_last_time := some stall0 }
    -- line 117: (current_time - self.stall_last_time).seconds > max(5, 2*progress_rate)
    if tdSeconds (now - stall0) > max 5 (2 * gRate) then
      -- lines 118-124: stalled report with the frozen current values
      (st1,
       some
         { percent := 100 * st.progress_estimation
           eta := st.time_estimation
           totalBytes := st.total_bytecount
           elapsedSeconds := tdSeconds (now - start0)
           speed := st.speed
           stalled := true },
       none)
    else
      -- line 126: nsteps increment happens before the changes guard
      let nsteps1 : ℕ := st.nsteps + 1
      -- lines 136-139
      let changes : ℤ := dstats.NewFileSize + dstats.ChangedFileSize
      let total_changes : ℤ := ev.NewFileSize + ev.ChangedFileSize
      if changes = 0 ∨ total_changes = 0 then
        ({ st1 with nsteps := nsteps1 }, none, none)
      else
        -- line 142
        let last_progress_estimation : ℚ := st.progress_estimation
        -- lines 145-149: Welford update of the change ratio
        let change_ratio : ℚ := (dstats.RawDeltaSize : ℚ) / (changes : ℚ)
        let change_delta : ℚ := change_ratio - st.change_mean_ratio
        let change_mean1 : ℚ := st.change_mean_ratio + change_delta / (nsteps1 : ℚ)
        let change_r1 : ℚ :=
          st.change_r_estimation + change_delta * (change_ratio - change_mean1)
        let change_sigma : ℚ := Rat.sqrt |change_r1 / (nsteps1 : ℚ)|
        -- line 152: total_bytecount / float(RawDeltaSize) has no zero guard
        if dstats.RawDeltaSize = 0 then
          ({ st1 with
             nsteps := nsteps1
             change_mean_ratio := change_mean1
             change_r_estimation := change_r1 },
           none, some PyErr.zeroDivisionError)
        else
          -- lines 152-156: Welford update of the compression ratio
          let compress_ratio : ℚ := (st.total_bytecount : ℚ) / (dstats.RawDeltaSize : ℚ)
          let compress_delta : ℚ := compress_ratio - st.compress_mean_ratio
          let compress_mean1 : ℚ :=
            st.compress_mean_ratio + compress_delta / (nsteps1 : ℚ)
          let compress_r1 : ℚ :=
            st.compress_r_estimation + compress_delta * (compress_ratio - compress_mean1)
          let compress_sigma : ℚ := Rat.sqrt |compress_r1 / (nsteps1 : ℚ)|
          -- lines 159-161: combine and clamp to [0, 1]
          let raw_progress : ℚ :=
            (change_mean1 * compress_mean1 + change_sigma + compress_sigma) *
              (changes : ℚ) / (total_changes : ℚ)
          let clamped_progress : ℚ := max 0 (min raw_progress 1)
          -- lines 167-172: elapsed sum and the (1-x)/x time projection,
          -- computed from the freshly clamped value, before the monotonic clamp
          let elapsed_sum1 : ℚ := st.elapsed_sum + elapsed
          let projFactor : ℚ :=
            if 0 < clamped_progress then (1 - clamped_progress) / clamped_progress else 1
          let time_est1 : ℤ :=
            if 0 < elapsed_sum1 then pyLong (projFactor * elapsed_sum1)
            else st.time_estimation
          -- lines 175-176: monotonic clamp applied after the eta projection
          let progress2 : ℚ :=
            if clamped_progress < last_progress_estimation then last_progress_estimation
            else clamped_progress
          -- line 181 reads self.elapsed, which does not exist: AttributeError.
          -- Lines 182-196 are unreachable dead code and have no image here.
          ({ st1 with
             nsteps := nsteps1
             change_mean_ratio := change_mean1
             change_r_estimation := change_r1
             compress_mean_ratio := compress_mean1
             compress_r_estimation := compress_r1
             progress_estimation := progress2
             time_estimation := time_est1
             elapsed_sum := elapsed_sum1 },
           none, some PyErr.attributeError)

/-- ProgressTracker.total_elapsed_seconds (lines 219-223); raises TypeError
when start_time is still None (datetime - None is unsupported). -/
def total_elapsed_seconds (now : ℚ) (st : ProgressTracker) : Except PyErr ℤ :=
  match st.start_time with
  | none => Except.error PyErr.typeError
  | some s => Except.ok (tdSeconds (now - s))

/-- One call into the tracker: the byte-count callback, the one-shot evidence
setter, or a reporting tick (log_upload_progress). -/
inductive Op where
  | annotate (bytecount : ℤ) (now : ℚ)
  | evidence (stats : StatsSet)
  | tick (gProgress : Bool) (gRate : ℤ) (dstats : StatsSet) (now : ℚ)

/-- State transition of a single call (a tick keeps the post state whether or
not the call raised, matching Python, whose in-place mutations survive the
propagating exception). -/
def applyOp (st : ProgressTracker) : Op → ProgressTracker
  | Op.annotate b t => annotate_written_bytes b t st
  | Op.evidence s => set_evidence s st
  | Op.tick gP gR d t => (log_upload_progress gP gR d t st).1

/-- State after a whole sequence of calls. -/
def runOps (st : ProgressTracker) (ops : List Op) : ProgressTracker :=
  ops.foldl applyOp st

/-- State after a sequence of annotate_written_bytes calls, given as
(bytecount, now) pairs. -/
def runAnnotates (st : ProgressTracker) (l : List (ℤ × ℚ)) : ProgressTracker :=
  l.foldl (fun s p => annotate_written_bytes p.1 p.2 s) st

/-- The data one loop iteration of LogProgressThread.run feeds into
log_upload_progress: the diffdir stats and the current time. -/
structure TickIn where
  dstats : StatsSet
  now : ℚ
  deriving DecidableEq, Repr

/-- The while loop of LogProgressThread.run (lines 251-254): each iteration
calls log_upload_progress (a raised exception kills the thread, so no final
report is emitted); once the finished flag is observed the loop exits and one
forced final report (100.0, 0, total_bytecount, total_elapsed_seconds, speed,
False) is emitted.  Returns the reports emitted in order, the final tracker
state, and the exception that escaped the thread, if any. -/
def reporterLoop (gProgress : Bool) (gRate : ℤ) (st : ProgressTracker)
    (iters : List TickIn) (endTime : ℚ) :
    List Report × ProgressTracker × Option PyErr :=
  match iters with
  | [] =>
    match st.start_time with
    | none => ([], st, some PyErr.typeError)
    | some s =>
      ([{ percent := 100
          eta := 0
          totalBytes := st.total_bytecount
          elapsedSeconds := tdSeconds (endTime - s)
          speed := st.speed
          stalled := false }],
       st, none)
  | i :: rest =>
    let out := log_upload_progress gProgress gRate i.dstats i.now st
    match out.2.2 with
    | some e => (out.2.1.toList, out.1, some e)
    | none =>
      let tail := reporterLoop gProgress gRate out.1 rest endTime
      (out.2.1.toList ++ tail.1, tail.2.1, tail.2.2)

/-- LogProgressThread.run (lines 248-254): the loop body runs only when not a
dry run, progress reporting is on, and evidence has been collected; otherwise
the thread exits silently. -/
def runReporter (gDryRun gProgress : Bool) (gRate : ℤ) (st : ProgressTracker)
    (iters : List TickIn) (endTime : ℚ) :
    List Report × ProgressTracker × Option PyErr :=
  if gDryRun = false ∧ gProgress = true ∧ st.has_collected_evidence = true then
    reporterLoop gProgress gRate st iters endTime
  else ([], st, none)

/-! ## Concrete states used by the evaluations -/

/-- A freshly constructed tracker on which evidence of 1 new byte and 1
changed byte has been recorded. -/
def stEv : ProgressTracker := set_evidence ⟨1, 1, 0⟩ ProgressTracker.init

/-- stEv after the byte-count callback reported 1 cumulative byte at time 0:
the last byte activity happened at time 0. -/
def stActive : ProgressTracker := annotate_written_bytes 1 0 stEv

end Duplicity

namespace Duplicity

/-! ## Branch analysis of log_upload_progress -/

/-- Facts about the post state of a single log_upload_progress call that hold
on every branch, the raise points included: the progress estimation never
decreases, and when it changes it lands in the unit interval; the rate-sample
queue, the speed, and the byte counters are never touched by a tick (the code
that would update the first three sits after the raise point of line 181 and
is unreachable). -/
lemma lup_state_facts (gP : Bool) (gR : ℤ) (d : StatsSet) (now : ℚ)
    (st : ProgressTracker) :
    st.progress_estimation ≤ (log_upload_progress gP gR d now st).1.progress_estimation ∧
    ((log_upload_progress gP gR d now st).1.progress_estimation = st.progress_estimation ∨
      (0 ≤ (log_upload_progress gP gR d now st).1.progress_estimation ∧
        (log_upload_progress gP gR d now st).1.progress_estimation ≤ 1)) ∧
    (log_upload_progress gP gR d now st).1.transfers = st.transfers ∧
    (log_upload_progress gP gR d now st).1.speed = st.speed ∧
    (log_upload_progress gP gR d now st).1.last_total_bytecount = st.last_total_bytecount ∧
    (log_upload_progress gP gR d now st).1.total_bytecount = st.total_bytecount ∧
    (log_upload_progress gP gR d now st).1.last_bytecount = st.last_bytecount := by
  unfold log_upload_progress
  dsimp only
  split_ifs <;>
    refine ⟨?_, ?_, rfl, rfl, rfl, rfl, rfl⟩ <;>
    first
      | exact le_refl _
      | exact Or.inl rfl
      | exact le_of_not_lt (by assumption)
      | exact Or.inr ⟨le_max_left _ _, max_le (by norm_num) (min_le_right _ _)⟩

/-- A single call, whichever of the three operations, never decreases the
progress estimation field. -/
lemma applyOp_progress_le (st : ProgressTracker) (op : Op) :
    st.progress_estimation ≤ (applyOp st op).progress_estimation := by
  cases op with
  | annotate b t => simp [applyOp, annotate_written_bytes]
  | evidence s => simp [applyOp, set_evidence]
  | tick gP gR d t => exact (lup_state_facts gP gR d t st).1

lemma runOps_progress_le (ops : List Op) (st : ProgressTracker) :
    st.progress_estimation ≤ (runOps st ops).progress_estimation := by
  induction ops generalizing st with
  | nil => exact le_refl _
  | cons op rest ih =>
      calc st.progress_estimation ≤ (applyOp st op).progress_estimation :=
            applyOp_progress_le st op
        _ ≤ (runOps (applyOp st op) rest).progress_estimation := ih (applyOp st op)
        _ = (runOps st (op :: rest)).progress_estimation := by
            simp [runOps]

/-- A single call keeps the progress estimation inside the unit interval. -/
lemma applyOp_unit_interval (st : ProgressTracker) (op : Op)
    (h0 : 0 ≤ st.progress_estimation) (h1 : st.progress_estimation ≤ 1) :
    0 ≤ (applyOp st op).progress_estimation ∧ (applyOp st op).progress_estimation ≤ 1 := by
  cases op with
  | annotate b t => exact ⟨by simpa [applyOp, annotate_written_bytes] using h0,
      by simpa [applyOp, annotate_written_bytes] using h1⟩
  | evidence s => exact ⟨by simpa [applyOp, set_evidence] using h0,
      by simpa [applyOp, set_evidence] using h1⟩
  | tick gP gR d t =>
      have hmem := (lup_state_facts gP gR d t st).2.1
      simp only [applyOp]
      rcases hmem with h | h
      · rw [h]; exact ⟨h0, h1⟩
      · exact h

lemma runOps_unit_interval (ops : List Op) (st : ProgressTracker)
    (h0 : 0 ≤ st.progress_estimation) (h1 : st.progress_estimation ≤ 1) :
    0 ≤ (runOps st ops).progress_estimation ∧ (runOps st ops).progress_estimation ≤ 1 := by
  induction ops generalizing st with
  | nil => exact ⟨h0, h1⟩
  | cons op rest ih =>
      have h := applyOp_unit_interval st op h0 h1
      have := ih (applyOp st op) h.1 h.2
      simpa [runOps] using this

/-! ## Claim theorems -/

/-- C2: the progress_estimation field is non-decreasing: a single call to
log_upload_progress never decreases it (for any configuration, inputs and
state, thanks to the monotonicity clamp of lines 175-176, which runs before
the raise point of line 181), and hence it is non-decreasing across any
sequence of calls into the tracker. -/
theorem progress_estimation_monotone :
    (∀ (gP : Bool) (gR : ℤ) (d : StatsSet) (now : ℚ) (st : ProgressTracker),
      st.progress_estimation ≤ (log_upload_progress gP gR d now st).1.progress_estimation) ∧
    (∀ (st : ProgressTracker) (ops : List Op),
      st.progress_estimation ≤ (runOps st ops).progress_estimation) :=
  ⟨fun gP gR d now st => (lup_state_facts gP gR d now st).1,
   fun st ops => runOps_progress_le ops st⟩

/-- C3: progress_estimation is 0 at construction and stays inside the closed
unit interval after every sequence of operations on the tracker, whatever the
inputs (the clamp of line 161 lands every fresh estimate in the interval, and
the monotonicity clamp then picks one of two values in the interval). -/
theorem progress_estimation_unit_interval :
    ProgressTracker.init.progress_estimation = 0 ∧
    ∀ ops : List Op,
      0 ≤ (runOps ProgressTracker.init ops).progress_estimation ∧
        (runOps ProgressTracker.init ops).progress_estimation ≤ 1 :=
  ⟨rfl, fun ops =>
    runOps_unit_interval ops ProgressTracker.init (le_refl 0) (by norm_num [ProgressTracker.init])⟩

/-- C5: the rate-sample queue and the speed are in fact never updated by any
call to log_upload_progress: the code that appends a rate sample, evicts down
to 30 entries and folds the EMA (lines 182-188) sits after line 181, which
raises AttributeError (self.elapsed is never assigned), so it is dead code.
In particular a tick that reaches the statistics section raises and leaves
the queue empty and the speed at 0 on a fresh tracker with evidence. -/
theorem rate_queue_and_speed_dead :
    (∀ (gP : Bool) (gR : ℤ) (d : StatsSet) (now : ℚ) (st : ProgressTracker),
      (log_upload_progress gP gR d now st).1.transfers = st.transfers ∧
      (log_upload_progress gP gR d now st).1.speed = st.speed) ∧
    (log_upload_progress true 1 ⟨1, 0, 1⟩ 0 stEv).2.2 = some PyErr.attributeError ∧
    (log_upload_progress true 1 ⟨1, 0, 1⟩ 0 stEv).1.transfers = [] ∧
    (log_upload_progress true 1 ⟨1, 0, 1⟩ 0 stEv).1.speed = 0 := by
  refine ⟨fun gP gR d now st =>
    ⟨(lup_state_facts gP gR d now st).2.2.1, (lup_state_facts gP gR d now st).2.2.2.1⟩, ?_, ?_, ?_⟩ <;>
    norm_num [log_upload_progress, stEv, set_evidence, ProgressTracker.init,
      ProgressTracker.has_collected_evidence, tdSeconds]

end Duplicity

namespace Duplicity

/-- stEv with prior progress estimation 0.8 and a previous sample at time 0:
the estimator state just before a tick whose fresh estimate will fall below
the running value, exercising the monotonicity clamp. -/
def stC6 : ProgressTracker :=
  { stEv with progress_estimation := 4 / 5, last_time := some 0 }

/-- C1: log_upload_progress does not complete normally on the statistics
path.  On a fresh tracker with evidence (new=1, changed=1), a tick with live
stats (new=1, changed=0, rawDelta=1) raises AttributeError at line 181
(self.elapsed is never assigned), and a tick with rawDelta=0 raises
ZeroDivisionError at line 152 (no guard on RawDeltaSize).  The claim says
every call completes normally with all degenerate conditions skipped. -/
theorem tick_raises_exceptions :
    (log_upload_progress true 1 ⟨1, 0, 1⟩ 0 stEv).2.2 = some PyErr.attributeError ∧
    (log_upload_progress true 1 ⟨1, 0, 0⟩ 0 stEv).2.2 = some PyErr.zeroDivisionError := by
  constructor <;>
    norm_num [log_upload_progress, stEv, set_evidence, ProgressTracker.init,
      ProgressTracker.has_collected_evidence, tdSeconds]

/-- C6: the stored eta is computed from the pre-monotonic-clamp progress, and
no non-stalled report is ever emitted.  From state stC6 (running progress 0.8,
prior sample at time 0), a tick at time 10 whose fresh clamped estimate is 0
keeps progress 0.8 by the monotonicity clamp but stores
time_estimation = pyLong(1.0 * 10) = 10 (projection factor 1.0 for a zero
fresh estimate, lines 168-172, evaluated before the clamp of lines 175-176),
whereas the claimed relation against the reported progress 0.8 would demand
pyLong(((1 - 0.8)/0.8) * 10) = 2; the call then raises AttributeError at
line 181, so no non-stalled report carrying these values is emitted at all. -/
theorem eta_from_preclamp_progress :
    (log_upload_progress true 1 ⟨1, 0, 1⟩ 10 stC6).2.2 = some PyErr.attributeError ∧
    (log_upload_progress true 1 ⟨1, 0, 1⟩ 10 stC6).2.1 = none ∧
    (log_upload_progress true 1 ⟨1, 0, 1⟩ 10 stC6).1.progress_estimation = 4 / 5 ∧
    (log_upload_progress true 1 ⟨1, 0, 1⟩ 10 stC6).1.time_estimation = 10 ∧
    pyLong ((1 - 4 / 5) / (4 / 5) * 10) = 2 := by
  have h52 : ⌊(5 / 2 : ℚ)⌋ = 2 := by
    rw [Int.floor_eq_iff]
    norm_num
  have h25 : ((1 : ℚ) - 4 / 5) / (4 / 5) * 10 = 5 / 2 := by norm_num
  refine ⟨?_, ?_, ?_, ?_, ?_⟩ <;>
    norm_num [log_upload_progress, stC6, stEv, set_evidence, ProgressTracker.init,
      ProgressTracker.has_collected_evidence, tdSeconds, pyLong, h52, h25]

/-- C10: when no byte activity has ever been recorded (stall_last_time is
still None, as after construction, set_evidence and any number of
annotate_written_bytes calls with no positive delta), a call to
log_upload_progress initializes the stall baseline to the current time
(line 116), so the stall gap is zero, the stall branch cannot fire no matter
how much wall-clock time passed since construction or since set_evidence,
and no stalled report is emitted. -/
theorem first_gated_tick_not_stalled (gP : Bool) (gR : ℤ) (d : StatsSet)
    (now : ℚ) (st : ProgressTracker) (h : st.stall_last_time = none) :
    (∀ r : Report, (log_upload_progress gP gR d now st).2.1 = some r → r.stalled = false) ∧
    ((gP = false ∨ st.has_collected_evidence = false) ∨
      (log_upload_progress gP gR d now st).1.stall_last_time = some now) := by
  unfold log_upload_progress
  by_cases h1 : gP = false ∨ st.has_collected_evidence = false
  · rw [if_pos h1]
    exact ⟨fun r hr => by simp at hr, Or.inl h1⟩
  · rw [if_neg h1]
    dsimp only
    rw [h]
    dsimp only [Option.getD]
    rw [sub_self]
    have hstall : ¬ tdSeconds 0 > max 5 (2 * gR) := by
      have h0 : tdSeconds 0 = 0 := by norm_num [tdSeconds]
      rw [h0]
      exact not_lt.mpr (le_trans (by norm_num) (le_max_left 5 (2 * gR)))
    rw [if_neg hstall]
    refine ⟨?_, Or.inr ?_⟩
    · intro r hr
      split_ifs at hr
    · split_ifs <;> rfl

/-- C10 witness: on a fresh tracker with evidence and no recorded byte
activity, a tick 1000000 seconds after construction emits no stalled
report. -/
theorem first_gated_tick_not_stalled_witness :
    stEv.stall_last_time = none ∧
    ∀ r : Report, (log_upload_progress true 1 ⟨1, 0, 1⟩ 1000000 stEv).2.1 = some r →
      r.stalled = false :=
  ⟨rfl, (first_gated_tick_not_stalled true 1 ⟨1, 0, 1⟩ 1000000 stEv rfl).1⟩

end Duplicity

namespace Duplicity

/-- C4 counterexample: at a tick 5.5 seconds after the last recorded byte
activity, with reporting interval 1, the elapsed time exceeds
max(5, 2x1) = 5 seconds, yet the code does not emit a stalled report: the
stall test of line 117 compares the whole-seconds component
(timedelta.seconds, here floor(5.5) = 5) and 5 is not > 5, so the normal
path is taken, and with zero live changes no report at all is produced. -/
theorem stall_threshold_counterexample :
    (11 / 2 : ℚ) > ((max 5 (2 * 1) : ℤ) : ℚ) ∧
    (log_upload_progress true 1 ⟨0, 0, 0⟩ (11 / 2) stActive).2.1 = none := by
  have hf : ⌊(11 / 2 : ℚ)⌋ = 5 := by
    rw [Int.floor_eq_iff]
    norm_num
  constructor
  · norm_num
  · norm_num [log_upload_progress, stActive, stEv, annotate_written_bytes, set_evidence,
      ProgressTracker.init, ProgressTracker.has_collected_evidence, tdSeconds, hf]

/-- C4 (amended): when the whole-seconds component of the gap since the last
recorded byte activity (timedelta.seconds, i.e. the floor of the gap modulo
86400) exceeds max(5, 2 x reporting interval), the tick emits a stalled
report with the current (pre-tick) progress, eta, total bytes and speed, and
changes nothing but the three timestamp fields: the full post state is st
with only start_time, last_time and stall_last_time rewritten, so
sample_count, the ratio means and variance accumulators, progress_estimation,
time_estimation and speed are untouched. -/
theorem stall_report_frame (gR : ℤ) (d : StatsSet) (now t : ℚ)
    (st : ProgressTracker) (hev : st.has_collected_evidence = true)
    (hs : st.stall_last_time = some t)
    (hc : tdSeconds (now - t) > max 5 (2 * gR)) :
    log_upload_progress true gR d now st =
      ({ st with
         start_time := some (st.start_time.getD now)
         last_time := some now
         stall_last_time := some t },
       some { percent := 100 * st.progress_estimation
              eta := st.time_estimation
              totalBytes := st.total_bytecount
              elapsedSeconds := tdSeconds (now - st.start_time.getD now)
              speed := st.speed
              stalled := true },
       none) := by
  unfold log_upload_progress
  rw [if_neg (by simp [hev])]
  dsimp only
  rw [hs]
  dsimp only [Option.getD]
  rw [if_pos hc]

/-- C4 witness: with evidence set and byte activity last recorded at time 0,
a tick at time 7 with interval 1 takes the stall branch: it reports the
frozen values with stalled=true and leaves all statistics untouched. -/
theorem stall_report_frame_witness :
    tdSeconds ((7 : ℚ) - 0) > max 5 (2 * 1) ∧
    log_upload_progress true 1 ⟨5, 5, 5⟩ 7 stActive =
      ({ stActive with
         start_time := some (stActive.start_time.getD 7)
         last_time := some 7
         stall_last_time := some 0 },
       some { percent := 100 * stActive.progress_estimation
              eta := stActive.time_estimation
              totalBytes := stActive.total_bytecount
              elapsedSeconds := tdSeconds (7 - stActive.start_time.getD 7)
              speed := stActive.speed
              stalled := true },
       none) :=
  ⟨by norm_num [tdSeconds], stall_report_frame 1 ⟨5, 5, 5⟩ 7 0 stActive rfl rfl
    (by norm_num [tdSeconds])⟩

/-- C8 counterexample: the zero-changes guard does not leave sample_count
unchanged, and a zero-changes tick can still produce a report.  First: on a
fresh tracker with evidence, a non-stalled tick with zero live changes
increments nsteps from 0 to 1 (line 126 runs before the guard of line 138).
Second: with byte activity last recorded at time 0, a tick at time 7 with
zero live changes emits a stalled report, not nothing. -/
theorem zero_changes_counterexample :
    (log_upload_progress true 1 ⟨0, 0, 0⟩ 0 stEv).1.nsteps ≠ stEv.nsteps ∧
    (log_upload_progress true 1 ⟨0, 0, 0⟩ 7 stActive).2.1 =
      some { percent := 0, eta := 0, totalBytes := 1, elapsedSeconds := 0,
             speed := 0, stalled := true } := by
  constructor <;>
    norm_num [log_upload_progress, stActive, stEv, annotate_written_bytes, set_evidence,
      ProgressTracker.init, ProgressTracker.has_collected_evidence, tdSeconds]

/-- C8 (amended): at a tick that does not take the stall branch, if the live
changed-plus-new total is 0 or the evidence total is 0, no report and no
exception are produced, sample_count is incremented by exactly 1, and every
other running-statistics field is unchanged: the full post state is st with
only the three timestamp fields and nsteps rewritten. -/
theorem zero_changes_guard_frame (gR : ℤ) (d : StatsSet) (now : ℚ)
    (st : ProgressTracker) (hev : st.has_collected_evidence = true)
    (hns : ¬ tdSeconds (now - st.stall_last_time.getD now) > max 5 (2 * gR))
    (hz : d.NewFileSize + d.ChangedFileSize = 0 ∨
      (st.total_stats.getD ⟨0, 0, 0⟩).NewFileSize +
        (st.total_stats.getD ⟨0, 0, 0⟩).ChangedFileSize = 0) :
    log_upload_progress true gR d now st =
      ({ st with
         start_time := some (st.start_time.getD now)
         last_time := some now
         stall_last_time := some (st.stall_last_time.getD now)
         nsteps := st.nsteps + 1 },
       none, none) := by
  unfold log_upload_progress
  rw [if_neg (by simp [hev])]
  dsimp only
  rw [if_neg hns, if_pos hz]

/-- C8 witness: on a fresh tracker with evidence, a tick at time 0 with zero
live changes produces no report, increments nsteps to 1 and changes nothing
else but timestamps. -/
theorem zero_changes_guard_frame_witness :
    ((⟨0, 0, 0⟩ : StatsSet).NewFileSize + (⟨0, 0, 0⟩ : StatsSet).ChangedFileSize = 0) ∧
    log_upload_progress true 1 ⟨0, 0, 0⟩ 0 stEv =
      ({ stEv with
         start_time := some (stEv.start_time.getD 0)
         last_time := some 0
         stall_last_time := some (stEv.stall_last_time.getD 0)
         nsteps := stEv.nsteps + 1 },
       none, none) :=
  ⟨rfl, zero_changes_guard_frame 1 ⟨0, 0, 0⟩ 0 stEv rfl
    (by norm_num [stEv, set_evidence, ProgressTracker.init, tdSeconds])
    (Or.inl rfl)⟩

end Duplicity

namespace Duplicity

/-! ## C7: telescoping of annotate_written_bytes -/

lemma getLastD_cons_shift (a b : ℤ) (l : List ℤ) : (a :: l).getLastD b = l.getLastD a := by
  cases l <;> rfl

/-- Invariant of the byte-count callback: while the cumulative arguments are
non-decreasing, total_bytecount tracks last_bytecount exactly, so after a run
both equal the last argument seen. -/
lemma runAnnotates_total (l : List (ℤ × ℚ)) (st : ProgressTracker)
    (hinv : st.total_bytecount = st.last_bytecount)
    (hchain : List.Chain' (· ≤ ·) (st.last_bytecount :: l.map Prod.fst)) :
    (runAnnotates st l).total_bytecount = (l.map Prod.fst).getLastD st.last_bytecount ∧
    (runAnnotates st l).last_bytecount = (l.map Prod.fst).getLastD st.last_bytecount := by
  induction l generalizing st with
  | nil => exact ⟨hinv, rfl⟩
  | cons p rest ih =>
      obtain ⟨b, t⟩ := p
      rw [List.map_cons] at hchain
      have hle : st.last_bytecount ≤ b := (List.chain'_cons.mp hchain).1
      have hchain2 : List.Chain' (· ≤ ·) (b :: rest.map Prod.fst) :=
        (List.chain'_cons.mp hchain).2
      have hstep : runAnnotates st ((b, t) :: rest) =
          runAnnotates (annotate_written_bytes b t st) rest := by
        simp [runAnnotates]
      have htot : (annotate_written_bytes b t st).total_bytecount = b := by
        simp only [annotate_written_bytes]
        rw [max_eq_left (sub_nonneg.mpr hle), hinv]
        ring
      have hlast : (annotate_written_bytes b t st).last_bytecount = b := rfl
      have hinv2 : (annotate_written_bytes b t st).total_bytecount =
          (annotate_written_bytes b t st).last_bytecount := by rw [htot, hlast]
      have hch2 : List.Chain' (· ≤ ·)
          ((annotate_written_bytes b t st).last_bytecount :: rest.map Prod.fst) := by
        rw [hlast]; exact hchain2
      have hres := ih (annotate_written_bytes b t st) hinv2 hch2
      rw [hlast] at hres
      rw [List.map_cons, getLastD_cons_shift, hstep]
      exact hres

/-- C7: starting from a freshly constructed tracker, for every sequence of
annotate_written_bytes calls whose cumulative byte arguments are non-negative
and non-decreasing, total_bytecount afterwards equals the final argument (the
per-call positive deltas telescope); for the empty sequence it stays 0. -/
theorem total_bytecount_telescopes (l : List (ℤ × ℚ))
    (hnn : ∀ p ∈ l, (0 : ℤ) ≤ p.1)
    (hmono : List.Chain' (fun p q : ℤ × ℚ => p.1 ≤ q.1) l) :
    (runAnnotates ProgressTracker.init l).total_bytecount = (l.map Prod.fst).getLastD 0 := by
  have hchain : List.Chain' (· ≤ ·) ((0 : ℤ) :: l.map Prod.fst) := by
    rw [List.chain'_cons']
    refine ⟨?_, (List.chain'_map Prod.fst).mpr hmono⟩
    intro y hy
    cases l with
    | nil => simp at hy
    | cons p rest =>
        simp only [List.map_cons, List.head?_cons, Option.mem_def,
          Option.some.injEq] at hy
        exact hy ▸ hnn p (List.mem_cons_self p rest)
  exact (runAnnotates_total l ProgressTracker.init rfl hchain).1

/-- C7 witness: the calls 3, 5, 5 are non-negative and non-decreasing, and
leave total_bytecount equal to the final argument 5. -/
theorem total_bytecount_telescopes_witness :
    (∀ p ∈ ([(3, 0), (5, 1), (5, 2)] : List (ℤ × ℚ)), (0 : ℤ) ≤ p.1) ∧
    (runAnnotates ProgressTracker.init ([(3, 0), (5, 1), (5, 2)] : List (ℤ × ℚ))).total_bytecount =
      (([(3, 0), (5, 1), (5, 2)] : List (ℤ × ℚ)).map Prod.fst).getLastD 0 :=
  ⟨by intro p hp; fin_cases hp <;> norm_num,
   total_bytecount_telescopes _ (by intro p hp; fin_cases hp <;> norm_num)
     (by norm_num [List.chain'_cons, List.chain'_singleton])⟩

/-! ## C9: the reporter thread -/

lemma getLast?_append_of_getLast? {α : Type} (l1 l2 : List α) (x : α)
    (h : l2.getLast? = some x) : (l1 ++ l2).getLast? = some x := by
  have hne : l2 ≠ [] := by
    intro hnil
    rw [hnil] at h
    simp at h
  rw [List.getLast?_append_of_ne_nil l1 hne, h]

/-- If no loop iteration raises, the report list of a reporter run ends with
the forced completion report: percent 100, eta 0, not stalled, carrying the
final total byte count and speed and the elapsed seconds at shutdown. -/
lemma reporterLoop_last (gP : Bool) (gR : ℤ) (iters : List TickIn)
    (st : ProgressTracker) (endTime : ℚ)
    (hok : (reporterLoop gP gR st iters endTime).2.2 = none) :
    ∃ s : ℚ, (reporterLoop gP gR st iters endTime).2.1.start_time = some s ∧
      (reporterLoop gP gR st iters endTime).1.getLast? =
        some { percent := 100, eta := 0,
               totalBytes := (reporterLoop gP gR st iters endTime).2.1.total_bytecount,
               elapsedSeconds := tdSeconds (endTime - s),
               speed := (reporterLoop gP gR st iters endTime).2.1.speed,
               stalled := false } := by
  induction iters generalizing st with
  | nil =>
      cases hst : st.start_time with
      | none =>
          simp only [reporterLoop, hst] at hok
          exact Option.noConfusion hok
      | some s =>
          refine ⟨s, ?_, ?_⟩ <;> simp only [reporterLoop, hst, List.getLast?_singleton]
  | cons i rest ih =>
      cases herr : (log_upload_progress gP gR i.dstats i.now st).2.2 with
      | some e =>
          simp only [reporterLoop, herr] at hok
          exact Option.noConfusion hok
      | none =>
          simp only [reporterLoop, herr] at hok ⊢
          obtain ⟨s, h1, h2⟩ := ih (log_upload_progress gP gR i.dstats i.now st).1 hok
          exact ⟨s, h1, getLast?_append_of_getLast? _ _ _ h2⟩

/-- C9 counterexample: a reporter run that starts (evidence set, reporting
on, not a dry run) and performs one tick that reaches the statistics section
dies of the AttributeError of line 181: the thread emits no report at all, in
particular no final percent-100 report, even though it is then signalled to
stop. -/
theorem reporter_crash_no_final_report :
    (runReporter false true 1 stEv [⟨⟨1, 0, 1⟩, 0⟩] 2).1 = [] ∧
    (runReporter false true 1 stEv [⟨⟨1, 0, 1⟩, 0⟩] 2).2.2 = some PyErr.attributeError := by
  constructor <;>
    norm_num [runReporter, reporterLoop, log_upload_progress, stEv, set_evidence,
      ProgressTracker.init, ProgressTracker.has_collected_evidence, tdSeconds]

/-- C9 (amended): when the reporter has started (evidence set, reporting
enabled, not a dry run) and no tick of the run raises an exception, the last
report emitted after the stop signal has percent 100, eta 0 and stalled
false, and carries the tracker's current total byte count, speed, and the
elapsed seconds against its start_time, regardless of the last computed
progress estimation. -/
theorem reporter_stop_final_report (gRate : ℤ) (st : ProgressTracker)
    (iters : List TickIn) (endTime : ℚ)
    (hev : st.has_collected_evidence = true)
    (hok : (runReporter false true gRate st iters endTime).2.2 = none) :
    ∃ s : ℚ, (runReporter false true gRate st iters endTime).2.1.start_time = some s ∧
      (runReporter false true gRate st iters endTime).1.getLast? =
        some { percent := 100, eta := 0,
               totalBytes := (runReporter false true gRate st iters endTime).2.1.total_bytecount,
               elapsedSeconds := tdSeconds (endTime - s),
               speed := (runReporter false true gRate st iters endTime).2.1.speed,
               stalled := false } := by
  have hgate : false = false ∧ true = true ∧ st.has_collected_evidence = true :=
    ⟨rfl, rfl, hev⟩
  unfold runReporter at hok ⊢
  rw [if_pos hgate] at hok ⊢
  exact reporterLoop_last true gRate iters st endTime hok

/-- C9 witness: a run of two ticks with zero live changes (which complete
without raising), then the stop signal: the only report emitted is the final
one with percent 100, eta 0, stalled false. -/
theorem reporter_stop_final_report_witness :
    (runReporter false true 1 stEv [⟨⟨0, 0, 0⟩, 0⟩, ⟨⟨0, 0, 0⟩, 1⟩] 2).2.2 = none ∧
    ∃ s : ℚ,
      (runReporter false true 1 stEv [⟨⟨0, 0, 0⟩, 0⟩, ⟨⟨0, 0, 0⟩, 1⟩] 2).2.1.start_time = some s ∧
      (runReporter false true 1 stEv [⟨⟨0, 0, 0⟩, 0⟩, ⟨⟨0, 0, 0⟩, 1⟩] 2).1.getLast? =
        some { percent := 100, eta := 0,
               totalBytes :=
                 (runReporter false true 1 stEv [⟨⟨0, 0, 0⟩, 0⟩, ⟨⟨0, 0, 0⟩, 1⟩] 2).2.1.total_bytecount,
               elapsedSeconds := tdSeconds (2 - s),
               speed :=
                 (runReporter false true 1 stEv [⟨⟨0, 0, 0⟩, 0⟩, ⟨⟨0, 0, 0⟩, 1⟩] 2).2.1.speed,
               stalled := false } :=
  ⟨by norm_num [runReporter, reporterLoop, log_upload_progress, stEv, set_evidence,
      ProgressTracker.init, ProgressTracker.has_collected_evidence, tdSeconds],
   reporter_stop_final_report 1 stEv [⟨⟨0, 0, 0⟩, 0⟩, ⟨⟨0, 0, 0⟩, 1⟩] 2 rfl
     (by norm_num [runReporter, reporterLoop, log_upload_progress, stEv, set_evidence,
        ProgressTracker.init, ProgressTracker.has_collected_evidence, tdSeconds])⟩

end Duplicity
